import Mathlib

/-!
Shallow embedding of the GatorAggregator CLI (src/main.go, later revision of
the file, plus the SQL queries under src/unnamed).  External effects (the HTTP
client, the XML decoder, the config-file write, the SQL driver) are modelled as
explicit outcome parameters; pure control flow is translated function by
function from the Go source.
-/

/-- Config, from internal/config (read at startup; holds the database URL and
the current user name, per the spec's "Config file" description). -/
structure Config where
  DBURL : String
  CurrentUserName : String
  deriving DecidableEq

/-- One row of the users table (id, unique name; timestamps omitted as no
claim mentions them). -/
structure User where
  ID : Nat
  Name : String
  deriving DecidableEq

/-- One row of the feeds table.  Timestamps are modelled as Nat;
last_fetched_at is nullable, hence Option. -/
structure Feed where
  ID : Nat
  Name : String
  Url : String
  UserID : Nat
  last_fetched_at : Option Nat
  deriving DecidableEq

/-- One row of the posts table (url is the unique key the spec talks about). -/
structure Post where
  ID : Nat
  FeedID : Nat
  Title : String
  Url : String
  deriving DecidableEq

/-- RSSItem, src/main.go lines 120–125. -/
structure RSSItem where
  Title : String
  Link : String
  Description : String
  PubDate : String
  deriving DecidableEq

/-- The anonymous Channel struct inside RSSFeed, src/main.go lines 112–117. -/
structure RSSChannel where
  Title : String
  Link : String
  Description : String
  Item : List RSSItem
  deriving DecidableEq

/-- RSSFeed, src/main.go lines 111–118. -/
structure RSSFeed where
  Channel : RSSChannel
  deriving DecidableEq

/-- The zero value `RSSFeed{}` that every error branch of fetchFeed returns a
pointer to. -/
def emptyRSSFeed : RSSFeed := ⟨⟨"", "", "", []⟩⟩

/-- A CLI command, src/main.go lines 102–105: the verb and the remaining
arguments. -/
structure command where
  name : String
  args : List String
  deriving DecidableEq

/-- The database visible to the handlers: rows of the three tables the claims
mention. -/
structure DB where
  users : List User
  feeds : List Feed
  posts : List Post
  deriving DecidableEq

/-- Model of Go's html.UnescapeString on the character list, restricted to the
four predefined XML named entities (amp, lt, gt, quot); the library decodes a
much larger entity table, but every input considered in this development uses
only these.  An ampersand that starts no known entity is copied through, as
the library does. -/
def unescapeChars : List Char → List Char
  | [] => []
  | '&' :: 'a' :: 'm' :: 'p' :: ';' :: rest => '&' :: unescapeChars rest
  | '&' :: 'l' :: 't' :: ';' :: rest => '<' :: unescapeChars rest
  | '&' :: 'g' :: 't' :: ';' :: rest => '>' :: unescapeChars rest
  | '&' :: 'q' :: 'u' :: 'o' :: 't' :: ';' :: rest => '"' :: unescapeChars rest
  | c :: rest => c :: unescapeChars rest

/-- Model of html.UnescapeString on String. -/
def htmlUnescapeString (s : String) : String := ⟨unescapeChars s.data⟩

/-- Go source lines 359–362:
`for _, item := range newRSSFeed.Channel.Item ...` assigns the unescaped
title and description to `item`, which is a copy of the slice element; the
copy is discarded at the end of each iteration, so the slice is returned as
the loop leaves it, i.e. element by element unchanged.  The embedding
computes each updated copy and discards it, exactly as the Go loop does. -/
def forRangeUnescapeItems : List RSSItem → List RSSItem
  | [] => []
  | i :: rest =>
    let updatedCopy : RSSItem :=
      { i with Title := htmlUnescapeString i.Title,
               Description := htmlUnescapeString i.Description }
    let _ := updatedCopy
    i :: forRangeUnescapeItems rest

/-- The entity-decoding pass of fetchFeed, src/main.go lines 357–362: the
channel's Title and Description are reassigned decoded; the item loop runs
over copies (see forRangeUnescapeItems). -/
def fetchFeedPostProcess (f : RSSFeed) : RSSFeed :=
  let c1 := { f.Channel with Title := htmlUnescapeString f.Channel.Title }
  let c2 := { c1 with Description := htmlUnescapeString c1.Description }
  let c3 := { c2 with Item := forRangeUnescapeItems c2.Item }
  { Channel := c3 }

/-- Outcome of the external effects inside fetchFeed, in the order the source
performs them: building the request, executing it, reading the body, and
xml.Unmarshal.  `parsed` carries the RSSFeed value the decoder produced. -/
inductive FetchOutcome where
  | requestError (e : String)
  | doError (e : String)
  | readError (e : String)
  | parseError (e : String)
  | parsed (f : RSSFeed)
  deriving DecidableEq

/-- fetchFeed, src/main.go lines 334–366.  The Go function returns
`(*RSSFeed, error)`; the pointer is modelled as `Option RSSFeed` (none would
be a nil pointer) and the error as `Option String` (none is a nil error).
Each error branch of the source returns `&RSSFeed{}` together with the error —
except the xml.Unmarshal branch (line 354), which returns `&RSSFeed{}, nil`,
discarding the parse error. -/
def fetchFeed (outcome : FetchOutcome) : Option RSSFeed × Option String :=
  match outcome with
  | .requestError e => (some emptyRSSFeed, some e)
  | .doError e => (some emptyRSSFeed, some e)
  | .readError e => (some emptyRSSFeed, some e)
  | .parseError _ => (some emptyRSSFeed, none)
  | .parsed f => (some (fetchFeedPostProcess f), none)

/-- Names of the handler functions that main (src/main.go lines 147–153) can
put into the dispatch map. -/
inductive HandlerName where
  | login
  | register
  | reset
  | users
  | agg
  | addfeed
  | feeds
  deriving DecidableEq

/-- The dispatch map built by main, src/main.go lines 144–153: seven
cmds.register calls, in source order, with pairwise distinct keys (a Go map
with distinct keys is an association list). -/
def mainHandlers : List (String × HandlerName) :=
  [("login", .login), ("register", .register), ("reset", .reset),
   ("users", .users), ("agg", .agg), ("addfeed", .addfeed), ("feeds", .feeds)]

/-- Go map lookup `handler, exists := cmds.handlers[cmd.name]`. -/
def lookupHandler (hs : List (String × HandlerName)) (n : String) :
    Option HandlerName :=
  (hs.find? (fun p => p.fst == n)).map Prod.snd

/-- What commands.run does with a command: either it invokes the mapped
handler with the command (hence with its remaining arguments), or it returns
the Command-not-found error without invoking anything. -/
inductive RunResult where
  | invoked (h : HandlerName) (args : List String)
  | notFound (e : String)
  deriving DecidableEq

/-- commands.run, src/main.go lines 327–332, applied to the dispatch map that
main built. -/
def commandsRun (cmd : command) : RunResult :=
  match lookupHandler mainHandlers cmd.name with
  | some h => .invoked h cmd.args
  | none => .notFound ("Command not found: " ++ cmd.name)

/-- database.Queries.GetUser: `SELECT ... FROM users WHERE name = $1` (the
generated query file is not under src/, but its behaviour is fixed by the
callers and the spec's data model: look up the unique user with that name;
with no row, the sql package returns the no-rows error). -/
def dbGetUser (users : List User) (name : String) : Except String User :=
  match users.find? (fun u => u.Name == name) with
  | some u => .ok u
  | none => .error "sql: no rows in result set"

/-- Modelled from the spec: internal/config is not under src/.  Per the spec,
the config file "holds the database connection string and the currently
logged-in user name ... rewritten on login/register", so SetUser sets
CurrentUserName and rewrites the file; `writeError` is the outcome of that
file write, and it is the error SetUser returns.  (Whether the in-memory
field is already set when the write fails does not affect any claim below:
every claim either never reaches SetUser or ignores its error.) -/
def setUser (cfg : Config) (name : String) (writeError : Option String) :
    Config × Option String :=
  ({ cfg with CurrentUserName := name }, writeError)

/-- Result of handlerLogin: the returned error, the config afterwards, and
the list of names passed to SetUser calls (to state that SetUser was or was
not called). -/
structure LoginResult where
  err : Option String
  cfg : Config
  setUserCalls : List String
  deriving DecidableEq

/-- handlerLogin, src/main.go lines 171–189.  The external outcomes are the
database lookup (determined by the users table) and the config-file write
inside SetUser. -/
def handlerLogin (cfg : Config) (db : DB) (cmd : command)
    (setUserWriteError : Option String) : LoginResult :=
  match cmd.args with
  | [] => ⟨some "Login requires only one argument", cfg, []⟩
  | uname :: _ =>
    match dbGetUser db.users uname with
    | .error e => ⟨some ("User does not exist in database: " ++ e), cfg, []⟩
    | .ok user =>
      let su := setUser cfg user.Name setUserWriteError
      match su.snd with
      | some e => ⟨some e, su.fst, [user.Name]⟩
      | none => ⟨none, su.fst, [user.Name]⟩

/-- handlerRegister, src/main.go lines 191–216.  `createResult` is the
outcome of the CreateUser insert (on success the inserted row comes back, so
newUser.Name is the submitted name).  The source assigns the SetUser error to
err on line 212 and then returns nil on line 215 without checking it. -/
def handlerRegister (cfg : Config) (db : DB) (cmd : command)
    (createResult : Except String Unit) (setUserWriteError : Option String) :
    Option String × Config :=
  match cmd.args with
  | [] => (some "Register requires only one argument", cfg)
  | uname :: _ =>
    match dbGetUser db.users uname with
    | .ok _ => (some "User already exists", cfg)
    | .error _ =>
      match createResult with
      | .error e => (some e, cfg)
      | .ok _ =>
        let su := setUser cfg uname setUserWriteError
        (none, su.fst)

/-- The externally visible actions of one handlerAgg call: the URLs fetched
over HTTP, the feed rows read from the database by a selection query, the
feeds whose last_fetched_at was written, and the posts inserted. -/
structure AggTrace where
  fetchedURLs : List String
  selectedFeedIDs : List Nat
  markedFeedIDs : List Nat
  insertedPosts : List Post
  deriving DecidableEq

/-- handlerAgg, src/main.go lines 255–266: it ignores both its state and its
command, fetches the hardcoded URL once via fetchFeed, returns the fetch
error if there was one, otherwise prints the feed and returns nil.  It makes
no database call of any kind: no feed is selected, no last_fetched_at is
written, no post is inserted, and no loop or timer exists. -/
def handlerAgg (_s : DB) (_cmd : command) (outcome : FetchOutcome) :
    Option String × AggTrace :=
  let url := "https://www.wagslane.dev/index.xml"
  let fetched := fetchFeed outcome
  let trace : AggTrace := ⟨[url], [], [], []⟩
  match fetched.snd with
  | some e => (some e, trace)
  | none => (none, trace)

/-- A store with two feeds: "Blog" never fetched (last_fetched_at null) and
"News" fetched at time 100 — the spec's own example of a state where the
scheduler must pick "Blog" first. -/
def twoFeedsDB : DB :=
  ⟨[⟨1, "alice"⟩],
   [⟨1, "Blog", "https://blog.example/rss", 1, none⟩,
    ⟨2, "News", "https://news.example/rss", 1, some 100⟩],
   []⟩

/-- A successfully parsed RSS payload with two items. -/
def sampleParsedFeed : RSSFeed :=
  ⟨⟨"Lanes Blog", "https://www.wagslane.dev", "tech posts",
    [⟨"Post One", "https://www.wagslane.dev/p1", "first", "Mon, 01 Jan 2024"⟩,
     ⟨"Post Two", "https://www.wagslane.dev/p2", "second", "Tue, 02 Jan 2024"⟩]⟩⟩

/-- A store that already holds Post rows for both items of sampleParsedFeed:
the "re-fetch a feed whose items are unchanged" situation. -/
def postsDB : DB :=
  ⟨[⟨1, "alice"⟩],
   [⟨3, "Lanes Blog", "https://www.wagslane.dev/index.xml", 1, some 100⟩],
   [⟨10, 3, "Post One", "https://www.wagslane.dev/p1"⟩,
    ⟨11, 3, "Post Two", "https://www.wagslane.dev/p2"⟩]⟩

/-- An RSS item whose title and description carry the entity-escaped
ampersand. -/
def escapedItem : RSSItem :=
  ⟨"A &amp; B", "https://blog.example/p1", "C &amp; D", "Mon, 01 Jan 2024"⟩

/-- A parsed payload whose channel title/description and single item all
carry entity-escaped ampersands. -/
def escapedPayload : RSSFeed :=
  ⟨⟨"Lane &amp; Co", "https://blog.example", "News &amp; views", [escapedItem]⟩⟩

/-- C1: the scheduler claim fails on the code.  With "Blog" never fetched and
"News" fetched at time 100 in the store, running `agg 60s` selects neither
feed — handlerAgg issues no feed-selection query at all; it performs exactly
one HTTP fetch of the hardcoded URL https://www.wagslane.dev/index.xml and
returns, with no repetition on any interval and with the "60s" argument never
read. -/
theorem handlerAgg_no_feed_selection :
    handlerAgg twoFeedsDB ⟨"agg", ["60s"]⟩ (.parsed sampleParsedFeed)
      = (none, ⟨["https://www.wagslane.dev/index.xml"], [], [], []⟩) := rfl

/-- C2: fetchFeed does return the error when the network call errors or the
body cannot be read, but on an xml.Unmarshal failure (body not well-formed
XML) it returns the empty RSSFeed together with a nil error — the caller
receives no error at all on the parse-failure path (src/main.go line 354). -/
theorem fetchFeed_parse_failure_nil_error :
    fetchFeed (.parseError "EOF") = (some emptyRSSFeed, none) ∧
    fetchFeed (.doError "connection refused")
      = (some emptyRSSFeed, some "connection refused") ∧
    fetchFeed (.readError "unexpected EOF")
      = (some emptyRSSFeed, some "unexpected EOF") :=
  ⟨rfl, rfl, rfl⟩

/-- C3: on a successfully parsed payload, fetchFeed decodes the entity
escaping only in the channel's title and description; the items come back
byte-for-byte unchanged, their titles still containing the escaped form
(`A &amp; B`), because the decoding loop writes to a per-iteration copy. -/
theorem fetchFeed_leaves_item_entities_escaped :
    fetchFeed (.parsed escapedPayload)
      = (some ⟨⟨"Lane & Co", "https://blog.example", "News & views",
                [escapedItem]⟩⟩, none) := by
  decide

/-- C4: re-fetching a feed whose two items are already stored performs zero
CreatePost calls — not because duplicate conflicts are swallowed, but because
handlerAgg contains no post-insert logic at all; it fetches, prints, and
returns nil. -/
theorem handlerAgg_no_post_inserts :
    (handlerAgg postsDB ⟨"agg", ["30s"]⟩ (.parsed sampleParsedFeed)).snd.insertedPosts
        = [] ∧
    (handlerAgg postsDB ⟨"agg", ["30s"]⟩ (.parsed sampleParsedFeed)).fst = none :=
  ⟨rfl, rfl⟩

/-- C5: an aggregation cycle performs its network fetch without any prior
last_fetched_at write: the trace of a handlerAgg call contains the HTTP fetch
but marks no feed as fetched, before or after — the code never touches
last_fetched_at (there is no MarkFeedFetched call in handlerAgg). -/
theorem handlerAgg_no_claim_write :
    (handlerAgg twoFeedsDB ⟨"agg", ["1m"]⟩ (.parsed sampleParsedFeed)).snd.markedFeedIDs
        = [] ∧
    (handlerAgg twoFeedsDB ⟨"agg", ["1m"]⟩ (.parsed sampleParsedFeed)).snd.fetchedURLs
        = ["https://www.wagslane.dev/index.xml"] :=
  ⟨rfl, rfl⟩

/-- C6: after a successful register (args present, name free, CreateUser
succeeded), handlerRegister assigns the SetUser error to err and then returns
nil without checking it: even when the config write fails with error e, the
returned error is nil (and the in-memory current user was set). -/
theorem handlerRegister_ignores_setUser_error
    (cfg : Config) (db : DB) (uname : String) (rest : List String) (e : String)
    (h : db.users.find? (fun u => u.Name == uname) = none) :
    handlerRegister cfg db ⟨"register", uname :: rest⟩ (.ok ()) (some e)
      = (none, { cfg with CurrentUserName := uname }) := by
  simp [handlerRegister, dbGetUser, setUser, h]

theorem handlerRegister_ignores_setUser_error_witness :
    handlerRegister ⟨"postgres://localhost/gator", ""⟩ ⟨[], [], []⟩
        ⟨"register", ["bob"]⟩ (.ok ()) (some "config write failed")
      = (none, ⟨"postgres://localhost/gator", "bob"⟩) :=
  handlerRegister_ignores_setUser_error ⟨"postgres://localhost/gator", ""⟩
    ⟨[], [], []⟩ "bob" [] "config write failed" rfl

/-- C7 counterexample: "follow" is one of the verbs the spec lists, yet main
never registers it; run on a follow command takes the not-found branch and
invokes no handler. -/
theorem run_follow_not_registered :
    lookupHandler mainHandlers "follow" = none ∧
    commandsRun ⟨"follow", ["https://blog.example/rss"]⟩
      = .notFound ("Command not found: " ++ "follow") :=
  ⟨rfl, rfl⟩

/-- C7 amended: the dispatcher maps exactly the seven registered verbs
(login, register, reset, users, agg, addfeed, feeds) to their handlers,
passing the remaining arguments through; follow, following and unfollow are
not in the table; and for every name other than the seven registered ones run
returns the Command-not-found error without invoking any handler. -/
theorem dispatch_table_amended (n : String) (args : List String)
    (h1 : ("login" == n) = false) (h2 : ("register" == n) = false)
    (h3 : ("reset" == n) = false) (h4 : ("users" == n) = false)
    (h5 : ("agg" == n) = false) (h6 : ("addfeed" == n) = false)
    (h7 : ("feeds" == n) = false) :
    commandsRun ⟨"login", args⟩ = .invoked .login args ∧
    commandsRun ⟨"register", args⟩ = .invoked .register args ∧
    commandsRun ⟨"reset", args⟩ = .invoked .reset args ∧
    commandsRun ⟨"users", args⟩ = .invoked .users args ∧
    commandsRun ⟨"agg", args⟩ = .invoked .agg args ∧
    commandsRun ⟨"addfeed", args⟩ = .invoked .addfeed args ∧
    commandsRun ⟨"feeds", args⟩ = .invoked .feeds args ∧
    lookupHandler mainHandlers "follow" = none ∧
    lookupHandler mainHandlers "following" = none ∧
    lookupHandler mainHandlers "unfollow" = none ∧
    commandsRun ⟨n, args⟩ = .notFound ("Command not found: " ++ n) := by
  refine ⟨rfl, rfl, rfl, rfl, rfl, rfl, rfl, rfl, rfl, rfl, ?_⟩
  simp [commandsRun, lookupHandler, mainHandlers, List.find?, h1, h2, h3, h4,
    h5, h6, h7]

theorem dispatch_table_amended_witness :
    commandsRun ⟨"unfollow", ["https://blog.example/rss"]⟩
      = .notFound ("Command not found: " ++ "unfollow") :=
  (dispatch_table_amended "unfollow" ["https://blog.example/rss"]
    rfl rfl rfl rfl rfl rfl rfl).2.2.2.2.2.2.2.2.2.2

/-- C8: when the user lookup finds no row, handlerLogin returns the
not-found error built from the sql no-rows error, never calls SetUser (its
call list is empty), and leaves the config exactly as it was. -/
theorem handlerLogin_unknown_user_state_unchanged
    (cfg : Config) (db : DB) (uname : String) (rest : List String)
    (w : Option String)
    (h : db.users.find? (fun u => u.Name == uname) = none) :
    handlerLogin cfg db ⟨"login", uname :: rest⟩ w
      = ⟨some ("User does not exist in database: "
                ++ "sql: no rows in result set"), cfg, []⟩ := by
  simp [handlerLogin, dbGetUser, h]

theorem handlerLogin_unknown_user_state_unchanged_witness :
    handlerLogin ⟨"postgres://localhost/gator", "alice"⟩ ⟨[⟨1, "alice"⟩], [], []⟩
        ⟨"login", ["mallory"]⟩ none
      = ⟨some ("User does not exist in database: "
                ++ "sql: no rows in result set"),
         ⟨"postgres://localhost/gator", "alice"⟩, []⟩ :=
  handlerLogin_unknown_user_state_unchanged ⟨"postgres://localhost/gator", "alice"⟩
    ⟨[⟨1, "alice"⟩], [], []⟩ "mallory" [] none rfl

/-- C9: on every outcome of the external effects — request construction
error, client error, read error, parse error, or a successful parse — the
RSSFeed pointer fetchFeed returns is non-nil, so the caller may always
dereference it. -/
theorem fetchFeed_pointer_always_non_nil (o : FetchOutcome) :
    (fetchFeed o).fst.isSome = true := by
  cases o <;> rfl

/-- C10: handlerAgg reads neither its command arguments nor the database
state: on the same fetch outcome any two calls return identical results, and
every call performs exactly one HTTP fetch, of the fixed URL
https://www.wagslane.dev/index.xml. -/
theorem handlerAgg_input_independent (dbA dbB : DB) (cmdA cmdB : command)
    (o : FetchOutcome) :
    handlerAgg dbA cmdA o = handlerAgg dbB cmdB o ∧
    (handlerAgg dbA cmdA o).snd.fetchedURLs
      = ["https://www.wagslane.dev/index.xml"] := by
  refine ⟨rfl, ?_⟩
  cases o <;> rfl
